import Mathlib

/-!
Verification of the stage-orchestration core of the edgi-vid-library pipeline.

The definitions below are shallow embeddings of the Python source:

* `group_words_into_segments` embeds the function of the same name in
  `src/assembly_transcribe.py` (lines 41-64) and, identically, in
  `src/Scraping/Transcribing/overnight_transcribing.py` (lines 56-73).
* `tenacityRun` embeds the semantics of the `@retry(wait=wait_exponential(...),
  stop=stop_after_attempt(MAX_RETRIES))` decorator (tenacity defaults) used on
  `tag_transcript` in `src/Scraping/Tagging/overnight_tagging.py` and on
  `transcribe_with_assemblyai` in
  `src/Scraping/Transcribing/overnight_transcribing.py`.
* `tag_transcript_normalize` embeds the confidence-normalisation block of
  `tag_transcript` in `src/Scraping/Tagging/overnight_tagging.py` (lines 153-169).
* `process_video`, `markProcessing`, `requeueUpdate`, `runRoundItem` and
  `tag_videos_round` embed the per-item worker and one dispatch round of
  `tag_videos_continuously` in `src/Scraping/Tagging/overnight_tagging.py`.

External effects are made explicit: the Gemini call outcome and the possible
failure of the Supabase write inside the `try` block are oracle parameters;
the record store itself is modelled as always applying the updates that the
code issues (store outages are out of scope of the claims treated here).
Floating-point scores and durations are modelled as rationals; the clamping
and accounting under scrutiny are exact arithmetic, not rounding-sensitive.
-/

/-! ## Timed word tokens and phrase segments (assembly_transcribe.py) -/

/-- A word token as returned by AssemblyAI: text plus start/end offsets in
milliseconds (`word["text"]`, `word["start"]`, `word["end"]`). -/
structure Word where
  text : String
  start : Int
  «end» : Int
deriving DecidableEq

/-- A phrase segment produced by `group_words_into_segments`
(`{"start": ..., "end": ..., "text": ...}`). -/
structure Segment where
  start : Int
  «end» : Int
  text : String
deriving DecidableEq

/-- Python `s.endswith(post)` on character sequences (kernel-computable
rendering of `String.endsWith`). -/
def strEndsWith (s post : String) : Bool :=
  post.data.isSuffixOf s.data

/-- Python `word["text"].endswith((".", "!", "?", ",", ";"))`. -/
def isPunctTok (s : String) : Bool :=
  strEndsWith s "." || strEndsWith s "!" || strEndsWith s "?" ||
    strEndsWith s "," || strEndsWith s ";"

/-- Python `next_word and (next_word["start"] - word["end"] > 1000)`:
`rest` holds the words after the current word `w`. -/
def hasGapTo (w : Word) (rest : List Word) : Bool :=
  match rest with
  | [] => false
  | next :: _ => decide (next.start - w.«end» > 1000)

/-- Python `next_word["start"] if next_word else last_end`: the start of the
fresh accumulator segment opened after a segment is closed. -/
def nextStart (rest : List Word) (lastEnd : Int) : Int :=
  match rest with
  | [] => lastEnd
  | next :: _ => next.start

/-- Python truthiness of `s.strip()`: a string survives the final filter
exactly when it contains a non-whitespace character. -/
def hasContent (s : String) : Bool :=
  s.data.any (fun c => !c.isWhitespace)

/-- The loop body of `group_words_into_segments`: `curStart`/`curText` are the
`current_segment` accumulator; on `is_punctuation or has_gap or is_last_word`
the accumulator (with `end` set to the current word's end) is emitted and a
fresh accumulator is opened at the next word's start. -/
def groupWordsAux : Int → String → List Word → List Segment
  | _, _, [] => []
  | curStart, curText, w :: rest =>
    if isPunctTok w.text || hasGapTo w rest || rest.isEmpty then
      Segment.mk curStart w.«end» (curText ++ w.text ++ " ") ::
        groupWordsAux (nextStart rest w.«end») "" rest
    else
      groupWordsAux curStart (curText ++ w.text ++ " ") rest

/-- `group_words_into_segments(words)` from `src/assembly_transcribe.py` /
`src/Scraping/Transcribing/overnight_transcribing.py`: empty input gives `[]`;
otherwise the accumulator starts at `words[0]["start"]` with empty text, and
the final list comprehension keeps only segments whose stripped text is
non-empty (`hasContent`). -/
def group_words_into_segments (words : List Word) : List Segment :=
  match words with
  | [] => []
  | w :: _ => (groupWordsAux w.start "" words).filter (fun s => hasContent s.text)

/-- Python chain hypothesis on the token sequence: consecutive words do not
overlap (`word["end"] ≤ next_word["start"]`). -/
def wordChain : List Word → Bool
  | [] => true
  | [_] => true
  | w :: next :: rest => decide (w.«end» ≤ next.start) && wordChain (next :: rest)

/-- Consecutive produced segments satisfy `segment[i].end ≤ segment[i+1].start`. -/
def segChain : List Segment → Bool
  | [] => true
  | [_] => true
  | s :: t :: rest => decide (s.«end» ≤ t.start) && segChain (t :: rest)

/-! ## The retry decorator (tenacity) on tag_transcript / transcribe_with_assemblyai -/

/-- Classification of an external-call failure in the spec's taxonomy
(network timeout / 5xx / rate-limit vs malformed input / permanent 4xx /
content-policy rejection / schema-violating response). The Python code never
computes or consults such a classification; it is carried here only so that
theorems can quantify over it. -/
inductive ErrClass
  | transient
  | permanent
deriving DecidableEq

/-- An exception raised by one attempt of the wrapped external call. -/
structure CallErr where
  msg : String
  cls : ErrClass
deriving DecidableEq

/-- `MAX_RETRIES = 3` in both `overnight_tagging.py` and
`overnight_transcribing.py`. -/
def MAX_RETRIES : Nat := 3

/-- The normalized classification payload produced by `tag_transcript` and
consumed by `process_video` (dict keys become fields; a missing key at the
consumer would raise `KeyError`, which is absorbed into the call-outcome
oracle of `process_video`). Confidence scores and durations are rationals. -/
structure CatConf where
  tag : String
  confidence : ℚ
deriving DecidableEq

structure TopicConf where
  topic : String
  confidence : ℚ
deriving DecidableEq

structure OnbConf where
  category : String
  confidence : ℚ
deriving DecidableEq

structure FlagConf where
  flag : String
  confidence : ℚ
deriving DecidableEq

/-- The `difficulty_level` JSON object: either key may be absent (the sentinel
path writes a literal `{}`). -/
structure DiffObj where
  level : Option String
  confidence : Option ℚ
deriving DecidableEq

structure TagResult where
  categories : List CatConf
  topics : List TopicConf
  onboarding_categories : List OnbConf
  difficulty_level : DiffObj
  engagement_metrics : List (String × ℚ)
  content_flags : List FlagConf
  tagging_time : ℚ
deriving DecidableEq

/-- Semantics of `@retry(wait=wait_exponential(...), stop=stop_after_attempt(n))`
with tenacity's DEFAULT retry predicate, which retries on every `Exception`
(the source passes no `retry=` argument, so no transient/permanent distinction
exists): run attempts `f i, f (i+1), ...` until one succeeds or `n` attempts
have been consumed, then surface the last error. Returns the final outcome and
the index one past the last attempt made (= number of attempts when `i = 0`).
The fuel-0 base case is unreachable for `MAX_RETRIES = 3`. -/
def tenacityRun (f : Nat → Except CallErr TagResult) : Nat → Nat → Except CallErr TagResult × Nat
  | i, 0 => (Except.error (CallErr.mk "stop_after_attempt 0" ErrClass.permanent), i)
  | i, fuel + 1 =>
    match f i with
    | Except.ok a => (Except.ok a, i + 1)
    | Except.error e =>
      if fuel = 0 then (Except.error e, i + 1)
      else tenacityRun f (i + 1) fuel

/-- The decorated `tag_transcript` (and, identically, the decorated
`transcribe_with_assemblyai`): the per-attempt body `f` is retried under
`stop_after_attempt(MAX_RETRIES)`. -/
def tag_transcript_retried (f : Nat → Except CallErr TagResult) : Except CallErr TagResult × Nat :=
  tenacityRun f 0 MAX_RETRIES

/-! ## Confidence normalization inside tag_transcript (overnight_tagging.py 153-169) -/

/-- A raw parsed category entry: `category.get("confidence", 0)` tolerates a
missing confidence key, hence `Option`. -/
structure RawCat where
  tag : String
  confidence : Option ℚ
deriving DecidableEq

structure RawTopic where
  topic : String
  confidence : Option ℚ
deriving DecidableEq

structure RawOnb where
  category : String
  confidence : Option ℚ
deriving DecidableEq

structure RawFlag where
  flag : String
  confidence : Option ℚ
deriving DecidableEq

structure RawDifficulty where
  level : Option String
  confidence : Option ℚ
deriving DecidableEq

/-- The raw JSON object parsed from the model response. Each top-level key may
be missing (`parsed_result.get(key, default)`), hence the `Option` wrappers;
when a key is missing the Python loops iterate a fresh default object and the
key stays absent from the output. -/
structure RawTagOutput where
  categories : Option (List RawCat)
  topics : Option (List RawTopic)
  onboarding_categories : Option (List RawOnb)
  difficulty_level : Option RawDifficulty
  engagement_metrics : Option (List (String × ℚ))
  content_flags : Option (List RawFlag)
deriving DecidableEq

/-- Python `max(0, min(1, x))`. -/
def clamp01 (x : ℚ) : ℚ := max 0 (min 1 x)

/-- The in-place normalization block of `tag_transcript`
(`overnight_tagging.py` lines 153-168): every present entry gets
`confidence = max(0, min(1, entry.get("confidence", 0)))`; every value of
`engagement_metrics` is clamped; `difficulty_level`, when present, gets a
clamped confidence defaulting from 0. -/
def tag_transcript_normalize (r : RawTagOutput) : RawTagOutput :=
  RawTagOutput.mk
    (r.categories.map (List.map (fun c => RawCat.mk c.tag (some (clamp01 (c.confidence.getD 0))))))
    (r.topics.map (List.map (fun c => RawTopic.mk c.topic (some (clamp01 (c.confidence.getD 0))))))
    (r.onboarding_categories.map (List.map (fun c => RawOnb.mk c.category (some (clamp01 (c.confidence.getD 0))))))
    (r.difficulty_level.map (fun d => RawDifficulty.mk d.level (some (clamp01 (d.confidence.getD 0)))))
    (r.engagement_metrics.map (List.map (fun kv => (kv.1, clamp01 kv.2))))
    (r.content_flags.map (List.map (fun c => RawFlag.mk c.flag (some (clamp01 (c.confidence.getD 0))))))

/-- A present numeric score lies in `[0, 1]`; an absent one imposes nothing. -/
def confOK : Option ℚ → Bool
  | none => true
  | some x => decide (0 ≤ x ∧ x ≤ 1)

/-- Every numeric confidence/score field present anywhere in the classification
output lies in the closed interval `[0, 1]`. -/
def scoresWithin01 (r : RawTagOutput) : Bool :=
  ((r.categories.getD []).all fun c => confOK c.confidence) &&
  ((r.topics.getD []).all fun c => confOK c.confidence) &&
  ((r.onboarding_categories.getD []).all fun c => confOK c.confidence) &&
  (match r.difficulty_level with
   | none => true
   | some d => confOK d.confidence) &&
  ((r.engagement_metrics.getD []).all fun kv => confOK (some kv.2)) &&
  ((r.content_flags.getD []).all fun c => confOK c.confidence)

/-! ## Confidence validation inside tag_transcript (gemini_tag_transcripts.py 100-124) -/

/-- The response shape of `gemini_tag_transcripts.py`: its schema declares only
`categories` and `topics`. -/
structure GeminiRawOutput where
  categories : Option (List RawCat)
  topics : Option (List RawTopic)
deriving DecidableEq

/-- Python `conf = category.get("confidence", 0); if not (0 <= conf <= 1):
logger.warning(...)` (`gemini_tag_transcripts.py` lines 111-114): the bound
check only selects whether a warning is logged; the entry is returned with its
value unchanged in either branch. -/
def geminiValidateCat (c : RawCat) : RawCat :=
  if 0 ≤ c.confidence.getD 0 ∧ c.confidence.getD 0 ≤ 1 then c else c

/-- Same check for a topic entry (`gemini_tag_transcripts.py` lines 116-119). -/
def geminiValidateTopic (c : RawTopic) : RawTopic :=
  if 0 ≤ c.confidence.getD 0 ∧ c.confidence.getD 0 ≤ 1 then c else c

/-- The confidence-validation block of `tag_transcript` in
`gemini_tag_transcripts.py` (lines 110-119): both loops only log warnings, so
`parsed_result` is returned with every confidence value unchanged — no
clamping happens in this variant. -/
def gemini_tag_transcript_validate (r : GeminiRawOutput) : GeminiRawOutput :=
  GeminiRawOutput.mk
    (r.categories.map (List.map geminiValidateCat))
    (r.topics.map (List.map geminiValidateTopic))

/-- Every confidence present in a `gemini_tag_transcripts.py` result lies in
`[0, 1]`. -/
def geminiScoresWithin01 (r : GeminiRawOutput) : Bool :=
  ((r.categories.getD []).all fun c => confOK c.confidence) &&
  ((r.topics.getD []).all fun c => confOK c.confidence)

/-! ## The continuous tagger round (overnight_tagging.py: process_video,
tag_videos_continuously) -/

/-- `MODEL_NAME = "gemini-2.0-flash-lite"`. -/
def MODEL_NAME : String := "gemini-2.0-flash-lite"

/-- The `processing_errors` column: the sentinel path writes a plain string,
the exception handler writes the object `{"tagging": str(e)}`. -/
inductive PErr
  | text (s : String)
  | tagging (s : String)
deriving DecidableEq

/-- The columns of a `videos` row touched by the continuous tagger. `Option`
on a column means SQL NULL is representable; `tagged_at` timestamps are
abstract naturals. -/
structure VideoRow where
  id : String
  tag_status : String
  failure_count : Nat
  processing_errors : Option PErr
  categories : List CatConf
  topics : List TopicConf
  onboarding_categories : List OnbConf
  difficulty_level : DiffObj
  predictive_engagement : List (String × ℚ)
  content_flags : List FlagConf
  tagged_at : Option Nat
  tagging_model_used : Option String
  tagging_time : Option ℚ
deriving DecidableEq

/-- Python `s.strip()` (kernel-computable rendering): drop leading and
trailing whitespace characters. -/
def pyStrip (s : String) : String :=
  String.mk (((s.data.dropWhile Char.isWhitespace).reverse.dropWhile Char.isWhitespace).reverse)

/-- The guard `if not transcript or len(transcript) < 20` applied to the
stripped transcript, where a missing `transcripts` row yields `""`
(`process_video` lines 176-182; the transcript value itself is assumed
non-NULL, per the `transcripts` schema). -/
def insufficient_transcript (transcript0 : Option String) : Bool :=
  let transcript := match transcript0 with
    | none => ""
    | some t => pyStrip t
  decide (transcript = "" ∨ transcript.length < 20)

/-- The guard `if description and len(description) > 10`: `None` and `""` are
falsy. -/
def descTruthy : Option String → Bool
  | none => false
  | some d => !(d == "") && decide (d.length > 10)

/-- Whether `process_video` reaches a `tag_transcript` call for this input,
read off the branch structure of `process_video` lines 184-203: the
enrichment collaborator runs unless the transcript is insufficient AND the
description fails its truthiness/length guard. -/
def tagger_invoked (transcript0 description : Option String) : Bool :=
  if insufficient_transcript transcript0 then descTruthy description else true

/-- The sentinel write of `process_video` (lines 186-200): literal
`insufficient_data` entries with confidence 1.0, empty `difficulty_level` and
`predictive_engagement` objects, `tag_status = "done"`, a non-null
`processing_errors` string, and `tagging_time = 0.0`. -/
def insufficientUpdate (now : Nat) (row : VideoRow) : VideoRow :=
  { row with
    categories := [CatConf.mk "insufficient_data" 1],
    topics := [TopicConf.mk "insufficient_data" 1],
    onboarding_categories := [OnbConf.mk "insufficient_data" 1],
    difficulty_level := DiffObj.mk none none,
    predictive_engagement := [],
    content_flags := [],
    tag_status := "done",
    tagged_at := some now,
    tagging_model_used := some MODEL_NAME,
    processing_errors := some (PErr.text "Insufficient transcript and description"),
    tagging_time := some 0 }

/-- The success write of `process_video` (lines 204-218): result payload,
`tag_status = "done"`, `processing_errors = None`; `failure_count` is not
among the updated columns. -/
def successUpdate (now : Nat) (r : TagResult) (row : VideoRow) : VideoRow :=
  { row with
    categories := r.categories,
    topics := r.topics,
    onboarding_categories := r.onboarding_categories,
    difficulty_level := r.difficulty_level,
    predictive_engagement := r.engagement_metrics,
    content_flags := r.content_flags,
    tag_status := "done",
    tagged_at := some now,
    tagging_model_used := some MODEL_NAME,
    processing_errors := none,
    tagging_time := some r.tagging_time }

/-- The exception-handler write of `process_video` (lines 220-229): reads the
current `failure_count` and writes back exactly `tag_status = "error"`,
`failure_count + 1`, the structured `{"tagging": str(e)}` error, the model
name, and a NULL `tagging_time`; no other column is touched. -/
def errorUpdate (msg : String) (row : VideoRow) : VideoRow :=
  { row with
    tag_status := "error",
    failure_count := row.failure_count + 1,
    processing_errors := some (PErr.tagging msg),
    tagging_model_used := some MODEL_NAME,
    tagging_time := none }

/-- One invocation of `process_video` (lines 171-229). Oracles make the
effects explicit: `call` is the outcome of the (retry-decorated)
`tag_transcript` call reached on this path — `Except.error m` covers an
exhausted-retry exception as well as a `KeyError`/JSON failure surfaced from
it; `writeFails` is `some m` when the Supabase update inside the `try` block
raises with message `m` (in which case that update is not applied and the
`except` handler runs). Returns the row after the invocation plus the Python
return triple `(success, error, tagging_time)` (`video_id` is `row.id`). -/
def process_video (transcript0 description : Option String)
    (call : Except String TagResult) (writeFails : Option String) (now : Nat)
    (row : VideoRow) : VideoRow × Bool × Option String × ℚ :=
  if insufficient_transcript transcript0 then
    if descTruthy description then
      match call with
      | Except.error m => (errorUpdate m row, false, some m, 0)
      | Except.ok r =>
        match writeFails with
        | some m => (errorUpdate m row, false, some m, 0)
        | none => (successUpdate now r row, true, none, r.tagging_time)
    else
      match writeFails with
      | some m => (errorUpdate m row, false, some m, 0)
      | none => (insufficientUpdate now row, true, none, 0)
  else
    match call with
    | Except.error m => (errorUpdate m row, false, some m, 0)
    | Except.ok r =>
      match writeFails with
      | some m => (errorUpdate m row, false, some m, 0)
      | none => (successUpdate now r row, true, none, r.tagging_time)

/-- The bulk claim `update({"tag_status": "processing"})` issued on the fetched
batch (lines 257-259). -/
def markProcessing (row : VideoRow) : VideoRow :=
  { row with tag_status := "processing" }

/-- The requeue write issued before the same-batch retry (lines 284-288):
`tag_status = "pending"`, `failure_count = 0`, `processing_errors = None`. -/
def requeueUpdate (row : VideoRow) : VideoRow :=
  { row with tag_status := "pending", failure_count := 0, processing_errors := none }

deriving instance DecidableEq for Except

/-- The per-item environment of one dispatch round: the item's transcript and
description, plus the oracles for the first (pooled) attempt and for the
same-round retry attempt. -/
structure ItemEnv where
  transcript : Option String
  description : Option String
  firstCall : Except String TagResult
  firstWriteFails : Option String
  retryCall : Except String TagResult
  retryWriteFails : Option String
  now : Nat
deriving DecidableEq

/-- The first, pooled `process_video` invocation for an item. -/
def runItemFirst (env : ItemEnv) (row : VideoRow) : VideoRow × Bool × Option String × ℚ :=
  process_video env.transcript env.description env.firstCall env.firstWriteFails env.now row

/-- The same-round retry `process_video` invocation for an item. -/
def runItemRetry (env : ItemEnv) (row : VideoRow) : VideoRow × Bool × Option String × ℚ :=
  process_video env.transcript env.description env.retryCall env.retryWriteFails env.now row

/-- All writes one dispatch round of `tag_videos_continuously` performs on one
item's row, in program order: the bulk claim to `processing`, the pooled
`process_video` attempt, and — only when that attempt reported failure — the
requeue to `pending` with `failure_count = 0` followed by the synchronous
retry `process_video` call. Rows of distinct items are disjoint, so the
round's effect on a row is exactly this per-item composition. -/
def runRoundItem (env : ItemEnv) (row : VideoRow) : VideoRow :=
  let res1 := runItemFirst env (markProcessing row)
  if res1.2.1 then res1.1
  else (runItemRetry env (requeueUpdate res1.1)).1

/-- One full dispatch round of `tag_videos_continuously` (lines 240-307) over
a fetched batch, as the per-row composition above applied to every fetched
item. -/
def tag_videos_round (batch : List (ItemEnv × VideoRow)) : List VideoRow :=
  batch.map (fun p => runRoundItem p.1 p.2)

/-! ## Concrete sample data used by witnesses and counterexamples -/

def longTranscript : String := "This transcript is long enough for tagging."

def okResult : TagResult :=
  TagResult.mk [CatConf.mk "Physics" 1] [TopicConf.mk "black holes" 1]
    [OnbConf.mk "Space" 1] (DiffObj.mk (some "beginner") (some 1))
    [("attention_grabbing", 1)] [] 3

def row0 : VideoRow :=
  VideoRow.mk "vid-1" "pending" 0 none [] [] [] (DiffObj.mk none none) [] [] none none none

def rowFC2 : VideoRow := { row0 with failure_count := 2 }

def rowFC5 : VideoRow := { row0 with failure_count := 5 }

def envOK : ItemEnv :=
  ItemEnv.mk (some longTranscript) none (Except.ok okResult) none (Except.ok okResult) none 17

def envFailFail : ItemEnv :=
  ItemEnv.mk (some longTranscript) none (Except.error "boom") none
    (Except.error "boom again") none 17

def envFailOK : ItemEnv :=
  ItemEnv.mk (some longTranscript) none (Except.error "boom") none (Except.ok okResult) none 17

/-! ## Helper lemmas on process_video and the round -/

/-- Every `process_video` invocation lands in exactly one of the three write
shapes of the source: the exception-handler write, the success write, or the
sentinel write. -/
theorem process_video_cases (t d : Option String) (c : Except String TagResult)
    (w : Option String) (now : Nat) (row : VideoRow) :
    (∃ m, process_video t d c w now row = (errorUpdate m row, false, some m, 0))
    ∨ (∃ r2, process_video t d c w now row = (successUpdate now r2 row, true, none, r2.tagging_time))
    ∨ process_video t d c w now row = (insufficientUpdate now row, true, none, 0) := by
  rcases c with m | r
  all_goals rcases w with _ | m2
  all_goals by_cases h1 : insufficient_transcript t
  all_goals by_cases h2 : descTruthy d
  all_goals simp [process_video, h1, h2]
  all_goals exact Or.inl ⟨r, rfl, rfl⟩

/-- A failed `process_video` invocation is exactly the exception-handler
write: status `error`, failure_count incremented from the current row, the
structured tagging error, and the raised message returned. -/
theorem process_video_fail_spec (t d : Option String) (c : Except String TagResult)
    (w : Option String) (now : Nat) (row : VideoRow)
    (h : (process_video t d c w now row).2.1 = false) :
    ∃ m, process_video t d c w now row = (errorUpdate m row, false, some m, 0) := by
  rcases process_video_cases t d c w now row with hc | hc | hc
  · exact hc
  · rcases hc with ⟨r2, hr⟩
    rw [hr] at h
    simp at h
  · rw [hc] at h
    simp at h

/-- A successful `process_video` invocation marks the row `done` and does not
touch `failure_count`. -/
theorem process_video_success_spec (t d : Option String) (c : Except String TagResult)
    (w : Option String) (now : Nat) (row : VideoRow)
    (h : (process_video t d c w now row).2.1 = true) :
    (process_video t d c w now row).1.tag_status = "done"
    ∧ (process_video t d c w now row).1.failure_count = row.failure_count := by
  rcases process_video_cases t d c w now row with hc | hc | hc
  · rcases hc with ⟨m, hm⟩
    rw [hm] at h
    simp at h
  · rcases hc with ⟨r2, hr⟩
    rw [hr]
    exact ⟨rfl, rfl⟩
  · rw [hc]
    exact ⟨rfl, rfl⟩

/-! ## Helper lemmas on segment grouping -/

theorem hasContent_append (a b : String) :
    hasContent (a ++ b) = (hasContent a || hasContent b) := by
  simp [hasContent, String.data_append, List.any_append]

/-- The segment list produced from a non-empty word list is non-empty and its
head segment starts at the accumulator start. -/
theorem groupWordsAux_head_start : ∀ (ws : List Word) (curStart : Int) (curText : String),
    ws ≠ [] → ∃ s t, groupWordsAux curStart curText ws = s :: t ∧ s.start = curStart
  | [], _, _, h => absurd rfl h
  | w :: rest, curStart, curText, _ => by
    simp only [groupWordsAux]
    by_cases hcond : (isPunctTok w.text || hasGapTo w rest || rest.isEmpty) = true
    · rw [if_pos hcond]
      exact ⟨_, _, rfl, rfl⟩
    · rw [if_neg hcond]
      have hrest : rest ≠ [] := by
        intro hnil
        subst hnil
        simp at hcond
      exact groupWordsAux_head_start rest curStart (curText ++ w.text ++ " ") hrest

/-- Every emitted segment contains the text of the word that closed it, so if
every word has non-blank text then so does every emitted segment. -/
theorem groupWordsAux_content : ∀ (ws : List Word) (curStart : Int) (curText : String),
    (∀ w ∈ ws, hasContent w.text = true) →
    ∀ s ∈ groupWordsAux curStart curText ws, hasContent s.text = true := by
  intro ws
  induction ws with
  | nil =>
    intro _ _ _ s hs
    simp [groupWordsAux] at hs
  | cons w rest ih =>
    intro curStart curText hw s hs
    simp only [groupWordsAux] at hs
    by_cases hcond : (isPunctTok w.text || hasGapTo w rest || rest.isEmpty) = true
    · rw [if_pos hcond] at hs
      rcases List.mem_cons.mp hs with rfl | hs2
      · have hwd : hasContent w.text = true := hw w (List.mem_cons_self w rest)
        rw [hasContent_append, hasContent_append, hwd]
        simp
      · exact ih (nextStart rest w.«end») "" (fun x hx => hw x (List.mem_cons_of_mem w hx)) s hs2
    · rw [if_neg hcond] at hs
      exact ih curStart (curText ++ w.text ++ " ") (fun x hx => hw x (List.mem_cons_of_mem w hx)) s hs

theorem wordChain_tail : ∀ (w : Word) (rest : List Word),
    wordChain (w :: rest) = true → wordChain rest = true
  | _, [], _ => rfl
  | _, _ :: _, h => by
    rw [wordChain, Bool.and_eq_true] at h
    exact h.2

theorem wordChain_head : ∀ (w n : Word) (rest : List Word),
    wordChain (w :: n :: rest) = true → w.«end» ≤ n.start := by
  intro w n rest h
  rw [wordChain, Bool.and_eq_true] at h
  exact of_decide_eq_true h.1

/-- Produced segments are chained `end ≤ start` whenever the input words are.
The head of the recursive call starts at `nextStart rest`, which the word
chain bounds from below by the closing word's end. -/
theorem groupWordsAux_chain : ∀ (ws : List Word) (curStart : Int) (curText : String),
    wordChain ws = true → segChain (groupWordsAux curStart curText ws) = true := by
  intro ws
  induction ws with
  | nil =>
    intro _ _ _
    rfl
  | cons w rest ih =>
    intro curStart curText hchain
    simp only [groupWordsAux]
    by_cases hcond : (isPunctTok w.text || hasGapTo w rest || rest.isEmpty) = true
    · rw [if_pos hcond]
      cases rest with
      | nil => rfl
      | cons n rest2 =>
        obtain ⟨s, t, hst, hstart⟩ :=
          groupWordsAux_head_start (n :: rest2) (nextStart (n :: rest2) w.«end») ""
            (List.cons_ne_nil n rest2)
        rw [hst]
        have hchain2 : wordChain (n :: rest2) = true := wordChain_tail w (n :: rest2) hchain
        have hle : w.«end» ≤ n.start := wordChain_head w n rest2 hchain
        have hseg : segChain (s :: t) = true := by
          rw [← hst]
          exact ih (nextStart (n :: rest2) w.«end») "" hchain2
        have hss : s.start = n.start := hstart
        rw [segChain, Bool.and_eq_true]
        refine ⟨decide_eq_true ?_, hseg⟩
        rw [hss]
        exact hle
    · rw [if_neg hcond]
      exact ih curStart (curText ++ w.text ++ " ") (wordChain_tail w rest hchain)

/-- When every word has non-blank text the final filter keeps every segment. -/
theorem groupWords_filter_eq (ws : List Word) (curStart : Int) (curText : String)
    (h : ∀ w ∈ ws, hasContent w.text = true) :
    (groupWordsAux curStart curText ws).filter (fun s => hasContent s.text)
      = groupWordsAux curStart curText ws := by
  apply List.filter_eq_self.mpr
  intro s hs
  exact groupWordsAux_content ws curStart curText h s hs

/-! ## Claims C6 and C8: segment grouping -/

def blankWord : Word := Word.mk "" 0 5

def punctA : Word := Word.mk "a." 0 100

def punctB : Word := Word.mk "b." 50 80

/-- Claim C6 counterexample: the claimed property fails for some non-empty
token sequences. A single token with empty text yields an empty segment list
(the blank segment is filtered out), refuting non-emptiness; and tokens whose
offsets are not chained (`end ≤ next start`) produce consecutive segments
with `segment[0].end > segment[1].start`, refuting contiguity. -/
theorem segments_wellformed_counterexample :
    ([blankWord] ≠ ([] : List Word) ∧ group_words_into_segments [blankWord] = [])
    ∧ ([punctA, punctB] ≠ ([] : List Word)
        ∧ group_words_into_segments [punctA, punctB]
            = [Segment.mk 0 100 "a. ", Segment.mk 50 80 "b. "]
        ∧ segChain (group_words_into_segments [punctA, punctB]) = false) := by
  decide

/-- Claim C6 (amended): for every non-empty sequence of timed word tokens in
which every token's text is non-blank and consecutive tokens satisfy
`word[i].end ≤ word[i+1].start`, the produced segment list is non-empty,
every produced segment's text is non-blank, and consecutive segments satisfy
`segment[i].end ≤ segment[i+1].start`. -/
theorem segments_wellformed_amended (ws : List Word) (h0 : ws ≠ [])
    (hc : (ws.all fun w => hasContent w.text) = true) (ho : wordChain ws = true) :
    group_words_into_segments ws ≠ []
    ∧ ((group_words_into_segments ws).all fun s => hasContent s.text) = true
    ∧ segChain (group_words_into_segments ws) = true := by
  have hc2 : ∀ w ∈ ws, hasContent w.text = true := List.all_eq_true.mp hc
  cases ws with
  | nil => exact absurd rfl h0
  | cons w rest =>
    have hgdef : group_words_into_segments (w :: rest)
        = (groupWordsAux w.start "" (w :: rest)).filter (fun s => hasContent s.text) := rfl
    rw [hgdef, groupWords_filter_eq (w :: rest) w.start "" hc2]
    obtain ⟨s, t, hst, _⟩ :=
      groupWordsAux_head_start (w :: rest) w.start "" (List.cons_ne_nil w rest)
    refine ⟨?_, ?_, groupWordsAux_chain (w :: rest) w.start "" ho⟩
    · rw [hst]
      exact List.cons_ne_nil s t
    · exact List.all_eq_true.mpr (groupWordsAux_content (w :: rest) w.start "" hc2)

/-- Witness for the amended C6 at a concrete chained, non-blank token list. -/
theorem segments_wellformed_amended_witness :
    ([Word.mk "Hi." 0 300, Word.mk "there" 1500 2000] ≠ ([] : List Word))
    ∧ (([Word.mk "Hi." 0 300, Word.mk "there" 1500 2000].all fun w => hasContent w.text) = true)
    ∧ wordChain [Word.mk "Hi." 0 300, Word.mk "there" 1500 2000] = true
    ∧ (group_words_into_segments [Word.mk "Hi." 0 300, Word.mk "there" 1500 2000] ≠ []
        ∧ ((group_words_into_segments [Word.mk "Hi." 0 300, Word.mk "there" 1500 2000]).all
              fun s => hasContent s.text) = true
        ∧ segChain (group_words_into_segments [Word.mk "Hi." 0 300, Word.mk "there" 1500 2000]) = true) :=
  ⟨by decide, by decide, by decide,
    segments_wellformed_amended [Word.mk "Hi." 0 300, Word.mk "there" 1500 2000]
      (by decide) (by decide) (by decide)⟩

def helloWords : List Word := [Word.mk "Hello" 0 500, Word.mk "world." 600 1100]

/-- Claim C8 counterexample: on the two-token scenario input the grouping does
NOT return the segment `{start: 0, end: 1100, text: "Hello world."}` — the
produced text carries a trailing space, because the loop appends
`word["text"] + " "` and the final filter never strips the kept segments. -/
theorem hello_world_segment_counterexample :
    group_words_into_segments helloWords ≠ [Segment.mk 0 1100 "Hello world."] := by
  decide

/-- Claim C8 (amended): on the scenario input the grouping returns exactly one
segment `{start: 0, end: 1100, text: "Hello world. "}` (trailing space). -/
theorem hello_world_segment_amended :
    group_words_into_segments helloWords = [Segment.mk 0 1100 "Hello world. "] := by
  decide

/-! ## Claim C3: the retry decorator ignores failure classification -/

def permanentFailure : Nat → Except CallErr TagResult :=
  fun _ => Except.error (CallErr.mk "HTTP 400 Bad Request: malformed input" ErrClass.permanent)

/-- Claim C3 counterexample: an attempt that always raises a failure
classified as permanent (a 400 on malformed input) is still retried — the
decorated call consumes all `MAX_RETRIES = 3` attempts instead of raising
after 1, because the decorator's default retry predicate retries on every
exception. -/
theorem tag_retry_counterexample :
    (tag_transcript_retried permanentFailure).2 = 3
    ∧ (tag_transcript_retried permanentFailure).1
        = Except.error (CallErr.mk "HTTP 400 Bad Request: malformed input" ErrClass.permanent)
    ∧ (3 : Nat) ≠ 1 := by
  decide

/-- Claim C3 (amended): the retry wrapper on `tag_transcript` /
`transcribe_with_assemblyai` retries every failed attempt regardless of its
transient/permanent classification; an always-failing call of either class
consumes the entire attempt budget (`fuel` attempts starting from attempt `i`)
before the last error is surfaced. -/
theorem tag_retry_ignores_error_class (e : CallErr) (i n : Nat) :
    tenacityRun (fun _ => Except.error e) i (n + 1) = (Except.error e, i + n + 1) := by
  induction n generalizing i with
  | zero => simp [tenacityRun]
  | succ k ih =>
    have hstep : tenacityRun (fun _ => Except.error e) i (k + 1 + 1)
        = tenacityRun (fun _ => Except.error e) (i + 1) (k + 1) := by
      simp [tenacityRun]
    rw [hstep, ih]
    have harith : i + 1 + k + 1 = i + (k + 1) + 1 := by omega
    rw [harith]

/-! ## Claim C7: confidence clamp -/

/-- Claim C7 counterexample: in the `gemini_tag_transcripts.py` variant of
`tag_transcript`, which the claim also covers, an out-of-range raw confidence
(here 2) is only warned about and flows through the validation block
unchanged, so after that normalization the output carries a score violating
`0 ≤ score ≤ 1`. -/
theorem gemini_scores_unclamped_counterexample :
    gemini_tag_transcript_validate
        (GeminiRawOutput.mk (some [RawCat.mk "Physics" (some 2)]) (some []))
      = GeminiRawOutput.mk (some [RawCat.mk "Physics" (some 2)]) (some [])
    ∧ geminiScoresWithin01
        (gemini_tag_transcript_validate
          (GeminiRawOutput.mk (some [RawCat.mk "Physics" (some 2)]) (some []))) = false := by
  decide

/-- Claim C7 (amended): after the normalization block of `tag_transcript` in
`overnight_tagging.py`, every numeric confidence/score present in the
classification output — categories, topics, onboarding categories,
difficulty, engagement metrics, content flags — lies in `[0, 1]`, for every
raw input, including out-of-range and missing values (missing values default
to 0 or the field stays omitted). The `gemini_tag_transcripts.py` variant
performs no clamping: its validation only logs warnings and returns raw
values unchanged (see the counterexample above). -/
theorem normalized_scores_in_unit_interval (r : RawTagOutput) :
    scoresWithin01 (tag_transcript_normalize r) = true := by
  have hc : ∀ x : ℚ, confOK (some (clamp01 x)) = true := by
    intro x
    have h0 : 0 ≤ clamp01 x := le_max_left 0 (min 1 x)
    have h1 : clamp01 x ≤ 1 := max_le (by norm_num) (min_le_left 1 x)
    simp [confOK]
    exact ⟨h0, h1⟩
  rcases r with ⟨cats, tops, onbs, diff, eng, flags⟩
  rcases cats with _ | cl <;> rcases tops with _ | tl <;> rcases onbs with _ | ol <;>
    rcases diff with _ | dd <;> rcases eng with _ | el <;> rcases flags with _ | fl <;>
      simp [tag_transcript_normalize, scoresWithin01, List.all_map, Function.comp,
        List.all_eq_true, hc]

/-! ## Round-level spec lemmas -/

theorem runItemFirst_fail_spec (env : ItemEnv) (row : VideoRow)
    (h : (runItemFirst env row).2.1 = false) :
    ∃ m, runItemFirst env row = (errorUpdate m row, false, some m, 0) :=
  process_video_fail_spec env.transcript env.description env.firstCall env.firstWriteFails
    env.now row h

theorem runItemRetry_fail_spec (env : ItemEnv) (row : VideoRow)
    (h : (runItemRetry env row).2.1 = false) :
    ∃ m, runItemRetry env row = (errorUpdate m row, false, some m, 0) :=
  process_video_fail_spec env.transcript env.description env.retryCall env.retryWriteFails
    env.now row h

theorem runItemFirst_success_spec (env : ItemEnv) (row : VideoRow)
    (h : (runItemFirst env row).2.1 = true) :
    (runItemFirst env row).1.tag_status = "done"
    ∧ (runItemFirst env row).1.failure_count = row.failure_count :=
  process_video_success_spec env.transcript env.description env.firstCall env.firstWriteFails
    env.now row h

theorem runItemRetry_success_spec (env : ItemEnv) (row : VideoRow)
    (h : (runItemRetry env row).2.1 = true) :
    (runItemRetry env row).1.tag_status = "done"
    ∧ (runItemRetry env row).1.failure_count = row.failure_count :=
  process_video_success_spec env.transcript env.description env.retryCall env.retryWriteFails
    env.now row h

/-- A raising external call (on a path that reaches it) or a raising try-block
write makes the `process_video` invocation report failure. -/
theorem process_video_raise_fails (t d : Option String) (c : Except String TagResult)
    (w : Option String) (now : Nat) (row : VideoRow)
    (h : (tagger_invoked t d = true ∧ c.isOk = false) ∨ w ≠ none) :
    (process_video t d c w now row).2.1 = false := by
  rcases h with ⟨hinv, hok⟩ | hw
  · rcases c with m | r
    · by_cases h1 : insufficient_transcript t
      · have h2 : descTruthy d = true := by
          unfold tagger_invoked at hinv
          rwa [if_pos h1] at hinv
        simp [process_video, h1, h2]
      · simp [process_video, h1]
    · simp [Except.isOk, Except.toBool] at hok
  · rcases hww : w with _ | m2
    · exact absurd hww hw
    · subst hww
      rcases c with m | r <;> by_cases h1 : insufficient_transcript t <;>
        by_cases h2 : descTruthy d <;> simp [process_video, h1, h2]

/-- After one dispatch-round pass an item's row carries a terminal status. -/
theorem runRoundItem_terminal (env : ItemEnv) (row : VideoRow) :
    (runRoundItem env row).tag_status = "done" ∨ (runRoundItem env row).tag_status = "error" := by
  by_cases h : (runItemFirst env (markProcessing row)).2.1 = true
  · simp only [runRoundItem]
    rw [if_pos h]
    exact Or.inl (runItemFirst_success_spec env (markProcessing row) h).1
  · simp only [runRoundItem]
    rw [if_neg h]
    by_cases h2 : (runItemRetry env (requeueUpdate (runItemFirst env (markProcessing row)).1)).2.1 = true
    · exact Or.inl
        (runItemRetry_success_spec env (requeueUpdate (runItemFirst env (markProcessing row)).1) h2).1
    · have h2b : (runItemRetry env (requeueUpdate (runItemFirst env (markProcessing row)).1)).2.1 = false := by
        cases hx : (runItemRetry env (requeueUpdate (runItemFirst env (markProcessing row)).1)).2.1
        · rfl
        · exact absurd hx h2
      obtain ⟨m, hm⟩ :=
        runItemRetry_fail_spec env (requeueUpdate (runItemFirst env (markProcessing row)).1) h2b
      rw [hm]
      exact Or.inr rfl

/-! ## Claim C1: at-least-one-terminal-state -/

/-- Claim C1: every Work Item fetched as pending into a dispatch round of
`tag_videos_continuously` ends the round — including the same-batch retry
pass — with `tag_status` exactly `"done"` or `"error"`, never left
`"processing"` or `"pending"`. -/
theorem tag_round_terminal_status (batch : List (ItemEnv × VideoRow)) (r : VideoRow)
    (hr : r ∈ tag_videos_round batch) :
    (r.tag_status = "done" ∨ r.tag_status = "error")
    ∧ r.tag_status ≠ "processing" ∧ r.tag_status ≠ "pending" := by
  obtain ⟨p, -, rfl⟩ := List.mem_map.mp hr
  show ((runRoundItem p.1 p.2).tag_status = "done" ∨ (runRoundItem p.1 p.2).tag_status = "error")
    ∧ (runRoundItem p.1 p.2).tag_status ≠ "processing"
    ∧ (runRoundItem p.1 p.2).tag_status ≠ "pending"
  rcases runRoundItem_terminal p.1 p.2 with h | h <;> rw [h]
  · exact ⟨Or.inl rfl, by decide, by decide⟩
  · exact ⟨Or.inr rfl, by decide, by decide⟩

theorem tag_round_terminal_status_witness :
    runRoundItem envOK row0 ∈ tag_videos_round [(envOK, row0)]
    ∧ (((runRoundItem envOK row0).tag_status = "done"
          ∨ (runRoundItem envOK row0).tag_status = "error")
        ∧ (runRoundItem envOK row0).tag_status ≠ "processing"
        ∧ (runRoundItem envOK row0).tag_status ≠ "pending") :=
  ⟨by decide, tag_round_terminal_status [(envOK, row0)] (runRoundItem envOK row0) (by decide)⟩

/-! ## Claim C2: per-item failures are isolated and recorded -/

/-- Claim C2: when an item's external call raises (on a path that invokes it)
or its try-block write-back raises, the failure never escapes
`process_video`: the first attempt reports failure, the item's own row is
written with status `"error"`, `failure_count` incremented by one, and the
structured `{"tagging": message}` error; and the dispatch round still maps
every other item of the batch to its own outcome, unperturbed. -/
theorem tag_failure_isolated (env : ItemEnv) (row : VideoRow)
    (pre post : List (ItemEnv × VideoRow))
    (hfail : (tagger_invoked env.transcript env.description = true
                ∧ env.firstCall.isOk = false)
              ∨ env.firstWriteFails ≠ none) :
    (runItemFirst env (markProcessing row)).2.1 = false
    ∧ (runItemFirst env (markProcessing row)).1.tag_status = "error"
    ∧ (runItemFirst env (markProcessing row)).1.failure_count = row.failure_count + 1
    ∧ (∃ m, (runItemFirst env (markProcessing row)).1.processing_errors
              = some (PErr.tagging m)
          ∧ (runItemFirst env (markProcessing row)).2.2.1 = some m)
    ∧ tag_videos_round (pre ++ (env, row) :: post)
        = tag_videos_round pre ++ runRoundItem env row :: tag_videos_round post := by
  have hfalse : (runItemFirst env (markProcessing row)).2.1 = false :=
    process_video_raise_fails env.transcript env.description env.firstCall env.firstWriteFails
      env.now (markProcessing row) hfail
  obtain ⟨m, hm⟩ := runItemFirst_fail_spec env (markProcessing row) hfalse
  refine ⟨hfalse, ?_, ?_, ⟨m, ?_, ?_⟩, ?_⟩
  · rw [hm]
    rfl
  · rw [hm]
    rfl
  · rw [hm]
    rfl
  · rw [hm]
  · simp [tag_videos_round, List.map_append]

theorem tag_failure_isolated_witness :
    (runItemFirst envFailFail (markProcessing rowFC5)).2.1 = false
    ∧ (runItemFirst envFailFail (markProcessing rowFC5)).1.tag_status = "error"
    ∧ (runItemFirst envFailFail (markProcessing rowFC5)).1.failure_count
        = rowFC5.failure_count + 1
    ∧ (∃ m, (runItemFirst envFailFail (markProcessing rowFC5)).1.processing_errors
              = some (PErr.tagging m)
          ∧ (runItemFirst envFailFail (markProcessing rowFC5)).2.2.1 = some m)
    ∧ tag_videos_round ([(envOK, row0)] ++ (envFailFail, rowFC5) :: [(envOK, rowFC2)])
        = tag_videos_round [(envOK, row0)]
            ++ runRoundItem envFailFail rowFC5 :: tag_videos_round [(envOK, rowFC2)] :=
  tag_failure_isolated envFailFail rowFC5 [(envOK, row0)] [(envOK, rowFC2)]
    (Or.inl ⟨by decide, by decide⟩)

/-! ## Claim C4: failure accounting across a doubly-failed round -/

/-- Claim C4 counterexample: an item entering the round with failure_count 2
that fails both the pooled attempt and the same-round retry leaves the round
with failure_count 1, not 2 + 1 — the requeue reset erases its pre-round
failure history before the retry's handler increments from 0. -/
theorem retry_failure_count_counterexample :
    rowFC2.failure_count = 2
    ∧ (runItemFirst envFailFail (markProcessing rowFC2)).2.1 = false
    ∧ (runItemRetry envFailFail
        (requeueUpdate (runItemFirst envFailFail (markProcessing rowFC2)).1)).2.1 = false
    ∧ (runRoundItem envFailFail rowFC2).failure_count = 1
    ∧ (runRoundItem envFailFail rowFC2).failure_count ≠ rowFC2.failure_count + 1 := by
  decide

/-- Claim C4 (amended): an item that fails both the pooled attempt and the
same-round retry ends the round with `tag_status = "error"` and
`failure_count` exactly 1 — the requeue resets the count to 0 and the retry's
exception handler increments from 0 — which equals the pre-round count plus 1
exactly when the pre-round count was 0. -/
theorem retry_failure_count_amended (env : ItemEnv) (row : VideoRow)
    (h1 : (runItemFirst env (markProcessing row)).2.1 = false)
    (h2 : (runItemRetry env
            (requeueUpdate (runItemFirst env (markProcessing row)).1)).2.1 = false) :
    (runRoundItem env row).failure_count = 1
    ∧ (runRoundItem env row).tag_status = "error" := by
  have hcond : ¬ ((runItemFirst env (markProcessing row)).2.1 = true) := by
    rw [h1]
    exact Bool.false_ne_true
  obtain ⟨m2, hm2⟩ :=
    runItemRetry_fail_spec env (requeueUpdate (runItemFirst env (markProcessing row)).1) h2
  simp only [runRoundItem]
  rw [if_neg hcond, hm2]
  exact ⟨rfl, rfl⟩

theorem retry_failure_count_amended_witness :
    (runItemFirst envFailFail (markProcessing rowFC5)).2.1 = false
    ∧ (runItemRetry envFailFail
        (requeueUpdate (runItemFirst envFailFail (markProcessing rowFC5)).1)).2.1 = false
    ∧ ((runRoundItem envFailFail rowFC5).failure_count = 1
        ∧ (runRoundItem envFailFail rowFC5).tag_status = "error") :=
  ⟨by decide, by decide,
    retry_failure_count_amended envFailFail rowFC5 (by decide) (by decide)⟩

/-! ## Claim C9: fail-then-succeed erases failure history -/

/-- Claim C9: an item that fails its pooled attempt and succeeds on the
same-round retry ends the round marked `"done"` with `failure_count = 0`
regardless of its pre-round value: the requeue wrote 0, and the success
write-back (`successUpdate`) leaves `failure_count` untouched on any row. -/
theorem retry_success_resets_failure_count (env : ItemEnv) (row row2 : VideoRow)
    (now2 : Nat) (r2 : TagResult)
    (h1 : (runItemFirst env (markProcessing row)).2.1 = false)
    (h2 : (runItemRetry env
            (requeueUpdate (runItemFirst env (markProcessing row)).1)).2.1 = true) :
    (runRoundItem env row).failure_count = 0
    ∧ (runRoundItem env row).tag_status = "done"
    ∧ (successUpdate now2 r2 row2).failure_count = row2.failure_count := by
  have hcond : ¬ ((runItemFirst env (markProcessing row)).2.1 = true) := by
    rw [h1]
    exact Bool.false_ne_true
  have hs :=
    runItemRetry_success_spec env (requeueUpdate (runItemFirst env (markProcessing row)).1) h2
  simp only [runRoundItem]
  rw [if_neg hcond]
  refine ⟨?_, hs.1, rfl⟩
  rw [hs.2]
  rfl

theorem retry_success_resets_failure_count_witness :
    (runItemFirst envFailOK (markProcessing rowFC5)).2.1 = false
    ∧ (runItemRetry envFailOK
        (requeueUpdate (runItemFirst envFailOK (markProcessing rowFC5)).1)).2.1 = true
    ∧ ((runRoundItem envFailOK rowFC5).failure_count = 0
        ∧ (runRoundItem envFailOK rowFC5).tag_status = "done"
        ∧ (successUpdate 3 okResult rowFC2).failure_count = rowFC2.failure_count) :=
  ⟨by decide, by decide,
    retry_success_resets_failure_count envFailOK rowFC5 rowFC2 3 okResult
      (by decide) (by decide)⟩

/-! ## Claims C5 and C10: the insufficient-input path -/

def longDescription : String := "A thorough description of the video content."

/-- Claim C5 counterexample: an item whose transcript is empty (hence below
the 20-character threshold) but whose description passes the
`description and len(description) > 10` guard is NOT short-circuited: the
enrichment collaborator is invoked (`tag_transcript("", description)`), and
when that call raises the item is marked `"error"`, not `"done"` with the
sentinel. -/
theorem insufficient_shortcircuit_counterexample :
    insufficient_transcript (some "") = true
    ∧ tagger_invoked (some "") (some longDescription) = true
    ∧ (process_video (some "") (some longDescription)
        (Except.error "boom") none 0 row0).1.tag_status = "error"
    ∧ (process_video (some "") (some longDescription)
        (Except.error "boom") none 0 row0).1.categories
        ≠ [CatConf.mk "insufficient_data" 1] := by
  decide

/-- Claim C5 (amended): an item whose transcript is empty or shorter than 20
characters AND whose description is missing, empty, or at most 10 characters
is marked `"done"` with the `insufficient_data` sentinel result and zero
recorded processing time, and the enrichment collaborator is never invoked —
the outcome is independent of the call oracle. -/
theorem insufficient_shortcircuit_amended (t d : Option String)
    (c c2 : Except String TagResult) (now : Nat) (row : VideoRow)
    (hins : insufficient_transcript t = true) (hdesc : descTruthy d = false) :
    process_video t d c none now row = (insufficientUpdate now row, true, none, 0)
    ∧ (insufficientUpdate now row).tag_status = "done"
    ∧ (insufficientUpdate now row).categories = [CatConf.mk "insufficient_data" 1]
    ∧ (insufficientUpdate now row).tagging_time = some 0
    ∧ tagger_invoked t d = false
    ∧ process_video t d c2 none now row = process_video t d c none now row := by
  have hmain : ∀ c3 : Except String TagResult,
      process_video t d c3 none now row = (insufficientUpdate now row, true, none, 0) := by
    intro c3
    simp [process_video, hins, hdesc]
  refine ⟨hmain c, rfl, rfl, rfl, ?_, by rw [hmain c2, hmain c]⟩
  unfold tagger_invoked
  rw [if_pos hins]
  exact hdesc

theorem insufficient_shortcircuit_amended_witness :
    insufficient_transcript (some "short") = true
    ∧ descTruthy (some "tiny") = false
    ∧ (process_video (some "short") (some "tiny") (Except.error "boom") none 9 row0
          = (insufficientUpdate 9 row0, true, none, 0)
        ∧ (insufficientUpdate 9 row0).tag_status = "done"
        ∧ (insufficientUpdate 9 row0).categories = [CatConf.mk "insufficient_data" 1]
        ∧ (insufficientUpdate 9 row0).tagging_time = some 0
        ∧ tagger_invoked (some "short") (some "tiny") = false
        ∧ process_video (some "short") (some "tiny") (Except.ok okResult) none 9 row0
            = process_video (some "short") (some "tiny") (Except.error "boom") none 9 row0) :=
  ⟨by decide, by decide,
    insufficient_shortcircuit_amended (some "short") (some "tiny")
      (Except.error "boom") (Except.ok okResult) 9 row0 (by decide) (by decide)⟩

/-- Claim C10: on the insufficient-input short-circuit path the row is
written with `tag_status = "done"` while `processing_errors` is
simultaneously the non-null string "Insufficient transcript and description",
so a `"done"` status does not imply a null `processing_errors`. -/
theorem insufficient_done_with_error_string (t d : Option String)
    (c : Except String TagResult) (now : Nat) (row : VideoRow)
    (hins : insufficient_transcript t = true) (hdesc : descTruthy d = false) :
    (process_video t d c none now row).1.tag_status = "done"
    ∧ (process_video t d c none now row).1.processing_errors
        = some (PErr.text "Insufficient transcript and description")
    ∧ (process_video t d c none now row).1.processing_errors ≠ none := by
  have hmain : process_video t d c none now row = (insufficientUpdate now row, true, none, 0) := by
    simp [process_video, hins, hdesc]
  rw [hmain]
  refine ⟨rfl, rfl, ?_⟩
  simp [insufficientUpdate]

theorem insufficient_done_with_error_string_witness :
    insufficient_transcript none = true
    ∧ descTruthy none = false
    ∧ ((process_video none none (Except.ok okResult) none 4 rowFC2).1.tag_status = "done"
        ∧ (process_video none none (Except.ok okResult) none 4 rowFC2).1.processing_errors
            = some (PErr.text "Insufficient transcript and description")
        ∧ (process_video none none (Except.ok okResult) none 4 rowFC2).1.processing_errors ≠ none) :=
  ⟨by decide, by decide,
    insufficient_done_with_error_string none none (Except.ok okResult) 4 rowFC2
      (by decide) (by decide)⟩
